import Mathlib

/-!
Shallow embedding of the resumable upload hook in
src/packages/hooks/src/hooks/useUpload.ts (pinata-expo), together with
theorems checking the specification claims about its retry policy,
session creation, chunk loop, input validation and state reset.
-/

/-- HTTP response as observed by the hook: the status code, the Location
header and the upload-cid header (the only headers the hook ever reads). -/
structure Response where
  status : Nat
  location : Option String
  uploadCid : Option String
deriving DecidableEq

/-- The fetch API ok flag: status in the inclusive range 200 to 299. -/
def Response.ok (r : Response) : Bool :=
  decide (200 ≤ r.status ∧ r.status ≤ 299)

/-- Error values thrown by the hook, mirroring the classes declared in
src/packages/hooks/src/types/uploads.ts plus the generic Error fallbacks
constructed in the catch blocks of useUpload.ts. -/
inductive Err
  | network (msg : String) (status : Nat)
  | auth (msg : String) (status : Nat)
  | validation (msg : String)
  | transport (msg : String)
  | generic (msg : String)
deriving DecidableEq

/-- Outcome of one fetch call: a response, or a thrown transport error. -/
inductive Outcome
  | resp (r : Response)
  | thrown (e : Err)
deriving DecidableEq

/-- Retry configuration, the shape of DEFAULT_RETRY_OPTIONS in useUpload.ts.
The maxRetries field is an Int because a caller may pass a negative value.
Delays are rationals, an exact model of the JavaScript number arithmetic
that occurs for these quantities. -/
structure RetryOptions where
  maxRetries : Int
  initialDelay : Rat
  maxDelay : Rat
  backoffMultiplier : Rat
  retryableStatuses : List Nat
deriving DecidableEq

/-- DEFAULT_RETRY_OPTIONS from useUpload.ts lines 16 to 22. -/
def DEFAULT_RETRY_OPTIONS : RetryOptions :=
  { maxRetries := 3
    initialDelay := 1000
    maxDelay := 30000
    backoffMultiplier := 2
    retryableStatuses := [408, 429, 500, 502, 503, 504] }

/-- The backoff delay computed at useUpload.ts lines 103 to 106:
min(initialDelay * 2 ^ attempt, maxDelay). The exponent base is the literal
2 in the source (Math.pow(2, attempt)). -/
def delayFor (cfg : RetryOptions) (attempt : Nat) : Rat :=
  min (cfg.initialDelay * 2 ^ attempt) cfg.maxDelay

/-- Delay formula as worded by the spec:
min(initialDelay * backoffMultiplier ^ k, maxDelay). Stated separately so it
can be compared with delayFor, the formula the code actually computes. -/
def specDelay (cfg : RetryOptions) (k : Nat) : Rat :=
  min (cfg.initialDelay * cfg.backoffMultiplier ^ k) cfg.maxDelay

/-- Reading of cancelledRef at the top of a retry loop iteration: the model
makes the flag read true from iteration cancelFrom onwards (none = the
upload is never cancelled). -/
def isCancelled (cancelFrom : Option Nat) (attempt : Nat) : Bool :=
  match cancelFrom with
  | none => false
  | some n => decide (n ≤ attempt)

/-- Trace of one fetchWithRetry call: how many fetch calls were issued, the
list of backoff delays actually waited out, the last value passed to
setRetryCount, and either the returned response or the thrown lastError
(none models the undefined lastError thrown when the loop body never ran). -/
structure RetryResult where
  attempts : Nat
  delays : List Rat
  retryCount : Nat
  result : Except (Option Err) Response

/-- Loop body of fetchWithRetry (useUpload.ts lines 72 to 110). The script
maps the attempt index to the outcome the network produces for that fetch.
The fuel argument counts the loop iterations still allowed by the guard
attempt <= maxRetries, so the entry point passes (maxRetries + 1).toNat. -/
def fetchLoopGo (cfg : RetryOptions) (script : Nat → Outcome)
    (cancelFrom : Option Nat) :
    Nat → Nat → Option Err → Nat → List Rat → Nat → RetryResult
  | 0, _, lastError, attempts, delays, rc =>
    ⟨attempts, delays, rc, Except.error lastError⟩
  | fuel + 1, attempt, lastError, attempts, delays, rc =>
    if isCancelled cancelFrom attempt then
      ⟨attempts, delays, rc, Except.error lastError⟩
    else
      match script attempt with
      | Outcome.resp r =>
        if r.ok = true ∨ (attempt : Int) = cfg.maxRetries then
          ⟨attempts + 1, delays, rc, Except.ok r⟩
        else if cfg.retryableStatuses.contains r.status = false then
          ⟨attempts + 1, delays, rc, Except.ok r⟩
        else
          if (attempt : Int) < cfg.maxRetries then
            fetchLoopGo cfg script cancelFrom fuel (attempt + 1)
              (some (Err.network "HTTP error during retry" r.status))
              (attempts + 1) (delays ++ [delayFor cfg attempt]) (attempt + 1)
          else
            fetchLoopGo cfg script cancelFrom fuel (attempt + 1)
              (some (Err.network "HTTP error during retry" r.status))
              (attempts + 1) delays rc
      | Outcome.thrown e =>
        if (attempt : Int) = cfg.maxRetries then
          ⟨attempts + 1, delays, rc, Except.error (some e)⟩
        else
          if (attempt : Int) < cfg.maxRetries then
            fetchLoopGo cfg script cancelFrom fuel (attempt + 1) (some e)
              (attempts + 1) (delays ++ [delayFor cfg attempt]) (attempt + 1)
          else
            fetchLoopGo cfg script cancelFrom fuel (attempt + 1) (some e)
              (attempts + 1) delays rc

/-- fetchWithRetry from useUpload.ts lines 67 to 115. -/
def fetchWithRetry (cfg : RetryOptions) (script : Nat → Outcome)
    (cancelFrom : Option Nat) : RetryResult :=
  fetchLoopGo cfg script cancelFrom (cfg.maxRetries + 1).toNat 0 none 0 [] 0

/-- Conversion applied in the catch blocks: a caught value that is an Error
instance is kept, anything else (such as the undefined lastError) is
replaced by a generic Error with a context-dependent message. -/
def caughtToError (msg : String) : Option Err → Err
  | some e => e
  | none => Err.generic msg

/-- Classification of one chunk transfer, useUpload.ts lines 199 to 224: the
fetchWithRetry result is inspected; a thrown value or a returned non-ok
response becomes the session error (setError in the catch of
continueUpload), an ok response lets the transfer proceed. -/
inductive ChunkOutcome
  | success (r : Response)
  | sessionFailed (e : Err)
deriving DecidableEq

/-- One chunk request with retries, as issued by continueUpload. -/
def chunkTransfer (cfg : RetryOptions) (script : Nat → Outcome)
    (cancelFrom : Option Nat) : ChunkOutcome :=
  match (fetchWithRetry cfg script cancelFrom).result with
  | Except.error le =>
    ChunkOutcome.sessionFailed (caughtToError "Unknown error during upload" le)
  | Except.ok r =>
    if r.ok = true then ChunkOutcome.success r
    else ChunkOutcome.sessionFailed (Err.network "HTTP error during chunk upload" r.status)

/-- Session creation, useUpload.ts lines 490 to 526: the POST is wrapped in
fetchWithRetry; afterwards a non-ok response is classified as an
AuthenticationError for 401 and 403 and a NetworkError otherwise, and an ok
response without a Location header is a fatal NetworkError. A thrown value
from fetchWithRetry propagates unchanged (the error side carries the
possibly undefined lastError). -/
def createSession (cfg : RetryOptions) (script : Nat → Outcome)
    (cancelFrom : Option Nat) : Except (Option Err) String :=
  match (fetchWithRetry cfg script cancelFrom).result with
  | Except.error le => Except.error le
  | Except.ok r =>
    if r.ok = false then
      if r.status = 401 ∨ r.status = 403 then
        Except.error (some (Err.auth "Authentication failed" r.status))
      else
        Except.error (some (Err.network "Error initializing upload" r.status))
    else
      match r.location with
      | none => Except.error (some (Err.network "Upload URL not provided" r.status))
      | some url => Except.ok url

/-- Result of finalizeUpload, useUpload.ts lines 258 to 286: the local cid
variable starts as the empty string; when headers from a previous chunk
response exist, the upload-cid header replaces it when present and truthy,
and otherwise cid becomes null (modelled as none). -/
def finalizeUpload (lastHeaders : Option Response) : Option String :=
  match lastHeaders with
  | none => some ""
  | some r =>
    match r.uploadCid with
    | none => none
    | some c => if c = "" then none else some c

/-- Outcome of one continueUpload invocation, useUpload.ts lines 145 to 247. -/
inductive ChunkStepResult
  | cancelledReset
  | pausedReturn
  | finalize
  | failed (e : Err)
  | advanced (newOffset : Nat)
deriving DecidableEq

/-- One iteration of continueUpload: the cancelled flag is read at the top
(cancelledAtTop), then the paused flag, then the offset is compared with the
file size, and only then is the chunk sent through fetchWithRetry, during
which the cancelled flag can change (cancelFromRetry). -/
def continueUploadStep (cfg : RetryOptions) (script : Nat → Outcome)
    (cancelledAtTop : Bool) (cancelFromRetry : Option Nat) (paused : Bool)
    (offset chunkSize fileSize : Nat) : ChunkStepResult :=
  if cancelledAtTop then ChunkStepResult.cancelledReset
  else if paused then ChunkStepResult.pausedReturn
  else if fileSize ≤ offset then ChunkStepResult.finalize
  else
    match chunkTransfer cfg script cancelFromRetry with
    | ChunkOutcome.sessionFailed e => ChunkStepResult.failed e
    | ChunkOutcome.success _ =>
      ChunkStepResult.advanced (min (offset + chunkSize) fileSize)

/-- Result of the chunk phase of a session: the session error if one was
set, the uploadResponse value set by finalizeUpload, the final offset, the
total number of chunk fetch calls and the headers captured last. -/
structure ChunkPhaseResult where
  error : Option Err
  uploadResponse : Option String
  finalOffset : Nat
  fetches : Nat
  lastHeaders : Option Response
deriving DecidableEq

/-- The recursive driving loop of continueUpload for an upload that is never
paused or cancelled, with the chunk script mapping an offset and an attempt
index to the network outcome. Each successful chunk advances the offset by
min(offset + chunkSize, fileSize) - offset and stores the response headers;
once the offset reaches the file size the session finalizes. The fuel bound
is a model artifact: with chunkSize positive, fileSize + 1 iterations always
suffice, so the fuel-exhausted branch is unreachable from runSession. -/
def chunkLoopGo (cfg : RetryOptions) (script : Nat → Nat → Outcome)
    (chunkSize fileSize : Nat) :
    Nat → Nat → Option Response → Nat → ChunkPhaseResult
  | 0, offset, lastHeaders, fetches =>
    ⟨some (Err.generic "model fuel exhausted"), none, offset, fetches, lastHeaders⟩
  | fuel + 1, offset, lastHeaders, fetches =>
    if fileSize ≤ offset then
      ⟨none, finalizeUpload lastHeaders, offset, fetches, lastHeaders⟩
    else
      let chunkLength := min (offset + chunkSize) fileSize - offset
      let fr := fetchWithRetry cfg (script offset) none
      match fr.result with
      | Except.error le =>
        ⟨some (caughtToError "Unknown error during upload" le), none, offset,
          fetches + fr.attempts, lastHeaders⟩
      | Except.ok r =>
        if r.ok = false then
          ⟨some (Err.network "HTTP error during chunk upload" r.status), none, offset,
            fetches + fr.attempts, some r⟩
        else
          chunkLoopGo cfg script chunkSize fileSize fuel (offset + chunkLength)
            (some r) (fetches + fr.attempts)

/-- Observable outcome of a whole session run on a freshly mounted hook. -/
structure SessionRun where
  error : Option Err
  uploadUrl : Option String
  uploadResponse : Option String
  finalOffset : Nat
  createFetches : Nat
  chunkFetches : Nat
deriving DecidableEq

/-- A full session on a freshly mounted hook that is never paused or
cancelled: createSession, then, only when it succeeded, the chunk loop. A
failure thrown out of createSession is caught by the upload entry point and
becomes the session error; no chunk request is ever issued in that case. -/
def runSession (cfg : RetryOptions) (createScript : Nat → Outcome)
    (chunkScript : Nat → Nat → Outcome) (chunkSize fileSize : Nat) : SessionRun :=
  let cf := (fetchWithRetry cfg createScript none).attempts
  match createSession cfg createScript none with
  | Except.error le =>
    { error := some (caughtToError "Unknown error during upload initialization" le)
      uploadUrl := none
      uploadResponse := none
      finalOffset := 0
      createFetches := cf
      chunkFetches := 0 }
  | Except.ok url =>
    let cp := chunkLoopGo cfg chunkScript chunkSize fileSize (fileSize + 1) 0 none 0
    { error := cp.error
      uploadUrl := some url
      uploadResponse := cp.uploadResponse
      finalOffset := cp.finalOffset
      createFetches := cf
      chunkFetches := cp.fetches }

/-- BASE_CHUNK_SIZE from useUpload.ts line 13. -/
def BASE_CHUNK_SIZE : Nat := 50 * 1024 * 1024 + 1

/-- Chunk size resolution in upload and uploadBase64: a caller supplied
positive chunkSize is used, anything else falls back to BASE_CHUNK_SIZE. -/
def resolveChunkSize (opt : Option Nat) : Nat :=
  match opt with
  | some c => if 0 < c then c else BASE_CHUNK_SIZE
  | none => BASE_CHUNK_SIZE

/-- Decoded byte size computed by uploadBase64 at useUpload.ts lines 414 to
417 from the cleaned base64 string: length * 3 / 4 - padding, where padding
counts the trailing equals signs. Exact rational arithmetic models the
JavaScript number computation. -/
def base64FileSize (len padding : Nat) : Rat :=
  (len : Rat) * 3 / 4 - (padding : Rat)

/-- The size validation of uploadBase64, lines 419 to 424: a decoded size
above the resolved chunk size raises a ValidationError before
initializeAndStartUpload is reached. -/
def uploadBase64Validate (len padding : Nat) (chunkSizeOpt : Option Nat) :
    Except Err Unit :=
  if (resolveChunkSize chunkSizeOpt : Rat) < base64FileSize len padding then
    Except.error (Err.validation "Base64 file size exceeds chunk size")
  else
    Except.ok ()

/-- uploadBase64 up to and including its network phase: validation first,
with the session only started when validation passed. For valid base64 the
string length is divisible by 4, so the decoded size used as the session
file size is the natural number len * 3 / 4 - padding. -/
def uploadBase64Run (len padding : Nat) (chunkSizeOpt : Option Nat)
    (cfg : RetryOptions) (createScript : Nat → Outcome)
    (chunkScript : Nat → Nat → Outcome) : SessionRun :=
  match uploadBase64Validate len padding chunkSizeOpt with
  | Except.error e =>
    { error := some e
      uploadUrl := none
      uploadResponse := none
      finalOffset := 0
      createFetches := 0
      chunkFetches := 0 }
  | Except.ok _ =>
    runSession cfg createScript chunkScript (resolveChunkSize chunkSizeOpt)
      (len * 3 / 4 - padding)

/-- The offset update of continueUpload, lines 170, 171 and 227: the new
offset is offset + (min(offset + chunkSize, fileSize) - offset). -/
def nextOffset (offset chunkSize fileSize : Nat) : Nat :=
  offset + (min (offset + chunkSize) fileSize - offset)

/-- Offset after n successful chunk transfers, starting from 0. -/
def uploadOffsetAfter (chunkSize fileSize : Nat) : Nat → Nat
  | 0 => 0
  | n + 1 => nextOffset (uploadOffsetAfter chunkSize fileSize n) chunkSize fileSize

/-- The fileInfoRef record, useUpload.ts lines 36 to 43. -/
structure FileInfo where
  fileUri : Option String
  base64Data : Option String
  fileSize : Nat
  fileType : String
  fileName : String
  isBase64 : Bool
deriving DecidableEq

/-- The mutable state of one mounted useUpload hook: the React state cells
and every ref the hook declares (lines 25 to 51). -/
structure HookState where
  progress : Rat
  loading : Bool
  error : Option Err
  uploadResponse : Option String
  retryCount : Nat
  uploadUrl : Option String
  paused : Bool
  cancelled : Bool
  uploadOffset : Nat
  fileInfo : Option FileInfo
  lastResponseHeaders : Option Response
  chunkSize : Nat
  retryOptions : RetryOptions
deriving DecidableEq

/-- resetState from useUpload.ts lines 53 to 64: it clears progress, error,
uploadResponse, retryCount, the upload URL, both flags, the offset and the
file info, and touches nothing else. -/
def resetState (s : HookState) : HookState :=
  { s with
    progress := 0
    error := none
    uploadResponse := none
    retryCount := 0
    uploadUrl := none
    paused := false
    cancelled := false
    uploadOffset := 0
    fileInfo := none }

/-- Outcome that keeps the retry loop going: a response that is not ok and
whose status is in retryableStatuses. -/
def retryableFail (cfg : RetryOptions) : Outcome → Prop
  | Outcome.resp r => r.ok = false ∧ cfg.retryableStatuses.contains r.status = true
  | Outcome.thrown _ => False

/-- Helper: when maxRetries is nonnegative and the first response is either
ok or has a non retryable status, fetchWithRetry returns it after exactly
one fetch, with no delay waited. -/
theorem fetch_returns_first (cfg : RetryOptions) (script : Nat → Outcome) (r : Response)
    (hmr : 0 ≤ cfg.maxRetries) (h0 : script 0 = Outcome.resp r)
    (h : r.ok = true ∨ cfg.retryableStatuses.contains r.status = false) :
    fetchWithRetry cfg script none = ⟨1, [], 0, Except.ok r⟩ := by
  obtain ⟨f, hf⟩ : ∃ f, (cfg.maxRetries + 1).toNat = f + 1 :=
    ⟨(cfg.maxRetries + 1).toNat - 1, by omega⟩
  unfold fetchWithRetry
  rw [hf]
  by_cases hok : r.ok = true
  · simp [fetchLoopGo, isCancelled, h0, hok]
  · have hnr := h.resolve_left hok
    by_cases hm : ((0 : Nat) : Int) = cfg.maxRetries
    · have hms : cfg.maxRetries = ((0 : Nat) : Int) := hm.symm
      simp [fetchLoopGo, isCancelled, h0, hms]
    · simp only [fetchLoopGo, isCancelled, h0]
      rw [if_neg Bool.false_ne_true, if_neg (not_or.mpr ⟨hok, hm⟩), if_pos hnr]

/-- Helper: with a nonnegative maxRetries equal to N and a script that
always answers with a retryable failure, the loop body runs through all its
iterations and finally returns the response of attempt N. -/
theorem fetchLoopGo_allRetryable (cfg : RetryOptions) (script : Nat → Outcome) (N : Nat)
    (hmr : cfg.maxRetries = (N : Int)) (hs : ∀ k, retryableFail cfg (script k)) :
    ∀ fuel a le attempts delays rc, 1 ≤ fuel → a + fuel = N + 1 →
      ∃ r, script N = Outcome.resp r ∧ r.ok = false ∧
        (fetchLoopGo cfg script none fuel a le attempts delays rc).attempts = attempts + fuel ∧
        (fetchLoopGo cfg script none fuel a le attempts delays rc).result = Except.ok r := by
  intro fuel
  induction fuel with
  | zero => intro a le attempts delays rc h1 _; omega
  | succ f ih =>
    intro a le attempts delays rc _ hsum
    have hsA := hs a
    cases hA : script a with
    | thrown e => rw [hA] at hsA; exact hsA.elim
    | resp r =>
      rw [hA] at hsA
      obtain ⟨hok, hin⟩ := hsA
      by_cases hf0 : f = 0
      · subst hf0
        have ha : a = N := by omega
        have hms : cfg.maxRetries = ((a : Nat) : Int) := by
          rw [hmr]
          exact_mod_cast congrArg Nat.cast ha.symm
        have hred : fetchLoopGo cfg script none 1 a le attempts delays rc =
            ⟨attempts + 1, delays, rc, Except.ok r⟩ := by
          simp [fetchLoopGo, isCancelled, hA, hms]
        refine ⟨r, by rw [← ha]; exact hA, hok, by rw [hred], by rw [hred]⟩
      · have haN : a < N := by omega
        have hne : ¬ (r.ok = true ∨ ((a : Nat) : Int) = cfg.maxRetries) := by
          rw [hmr]
          push_neg
          refine ⟨by simp [hok], ?_⟩
          exact_mod_cast Nat.ne_of_lt haN
        have hlt : ((a : Nat) : Int) < cfg.maxRetries := by
          rw [hmr]
          exact_mod_cast haN
        have hstep : fetchLoopGo cfg script none (f + 1) a le attempts delays rc =
            fetchLoopGo cfg script none f (a + 1)
              (some (Err.network "HTTP error during retry" r.status))
              (attempts + 1) (delays ++ [delayFor cfg a]) (a + 1) := by
          simp only [fetchLoopGo, isCancelled, hA]
          rw [if_neg Bool.false_ne_true, if_neg hne, if_neg (by rw [hin]; decide), if_pos hlt]
        obtain ⟨r', h1, h2, h3, h4⟩ :=
          ih (a + 1) (some (Err.network "HTTP error during retry" r.status))
            (attempts + 1) (delays ++ [delayFor cfg a]) (a + 1) (by omega) (by omega)
        refine ⟨r', h1, h2, ?_, ?_⟩
        · rw [hstep, h3]; omega
        · rw [hstep, h4]

/-- Helper: the offset update of continueUpload stays within the file and
makes strict progress while the file is not exhausted. -/
theorem nextOffset_bounds (offset chunkSize fileSize : Nat) (hcs : 0 < chunkSize)
    (hle : offset ≤ fileSize) :
    nextOffset offset chunkSize fileSize ≤ fileSize ∧
    (offset < fileSize → offset < nextOffset offset chunkSize fileSize) := by
  unfold nextOffset
  omega

/-- RetryConfig with backoffMultiplier 3 and the other fields at their
defaults, the failing input for claim C1. -/
def cfgMult3 : RetryOptions :=
  { maxRetries := 3, initialDelay := 1000, maxDelay := 30000, backoffMultiplier := 3, retryableStatuses := [408, 429, 500, 502, 503, 504] }

/-- Claim C1: the delay before retry attempt k + 1 should be
min(initialDelay * backoffMultiplier ^ k, maxDelay) for the configured
multiplier. The code computes min(initialDelay * 2 ^ k, maxDelay) with the
literal 2, so with backoffMultiplier 3 and k = 1 the code waits 2000 ms
where the claim requires 3000 ms. -/
theorem c1_backoff_multiplier_ignored :
    delayFor cfgMult3 1 = 2000 ∧ specDelay cfgMult3 1 = 3000 ∧
    delayFor cfgMult3 1 ≠ specDelay cfgMult3 1 := by
  refine ⟨?_, ?_, ?_⟩ <;> norm_num [delayFor, specDelay, cfgMult3, min_def]

/-- RetryConfig with a negative maxRetries, the input for claim C2. -/
def cfgNegRetries : RetryOptions := { DEFAULT_RETRY_OPTIONS with maxRetries := -1 }

/-- Script answering every fetch with a bare 200 response. -/
def script200 : Nat → Outcome := fun _ => Outcome.resp ⟨200, none, none⟩

/-- Claim C2 counterexample: with maxRetries = -1 the claim demands one
request attempt; the code makes zero attempts, because the loop guard
0 <= maxRetries fails immediately and the undefined lastError is thrown. -/
theorem c2_counterexample :
    (fetchWithRetry cfgNegRetries script200 none).attempts = 0 ∧
    (fetchWithRetry cfgNegRetries script200 none).attempts ≠ 1 ∧
    (fetchWithRetry cfgNegRetries script200 none).result = Except.error none := by
  refine ⟨by decide, by decide, rfl⟩

/-- Claim C2 amended: a caller supplied negative maxRetries is not
normalized to 0. The retry loop body never runs, zero request attempts are
made, fetchWithRetry throws its unset lastError (undefined), and the
caller catch converts that non Error value into a generic unknown error
which becomes the session error. -/
theorem c2_negative_max_retries (cfg : RetryOptions) (script : Nat → Outcome)
    (cancelFrom : Option Nat) (hneg : cfg.maxRetries < 0) :
    fetchWithRetry cfg script cancelFrom = ⟨0, [], 0, Except.error none⟩ ∧
    caughtToError "Unknown error during upload initialization" none =
      Err.generic "Unknown error during upload initialization" := by
  have hf : (cfg.maxRetries + 1).toNat = 0 := by omega
  constructor
  · unfold fetchWithRetry
    rw [hf]
    rfl
  · rfl

/-- Claim C2 witness: the amended statement evaluated at maxRetries = -1. -/
theorem c2_witness :
    cfgNegRetries.maxRetries < 0 ∧
    fetchWithRetry cfgNegRetries script200 none = ⟨0, [], 0, Except.error none⟩ :=
  ⟨by decide, (c2_negative_max_retries cfgNegRetries script200 none (by decide)).1⟩

/-- Script answering every fetch with a bare 404 response. -/
def script404 : Nat → Outcome := fun _ => Outcome.resp ⟨404, none, none⟩

/-- Claim C6: a chunk request answered with a status that is neither 2xx
nor in retryableStatuses is issued exactly once, with no backoff wait, and
the session immediately fails with a NetworkError carrying that status. -/
theorem c6_nonretryable_single_attempt (cfg : RetryOptions) (script : Nat → Outcome)
    (r : Response) (hmr : 0 ≤ cfg.maxRetries) (h0 : script 0 = Outcome.resp r)
    (hok : r.ok = false) (hnr : cfg.retryableStatuses.contains r.status = false) :
    fetchWithRetry cfg script none = ⟨1, [], 0, Except.ok r⟩ ∧
    chunkTransfer cfg script none =
      ChunkOutcome.sessionFailed (Err.network "HTTP error during chunk upload" r.status) := by
  have hf := fetch_returns_first cfg script r hmr h0 (Or.inr hnr)
  refine ⟨hf, ?_⟩
  unfold chunkTransfer
  rw [hf]
  simp [hok]

/-- Claim C6 witness: the default configuration against a chunk endpoint
answering 404, which is not in the default retryableStatuses. -/
theorem c6_witness :
    fetchWithRetry DEFAULT_RETRY_OPTIONS script404 none =
      ⟨1, [], 0, Except.ok ⟨404, none, none⟩⟩ ∧
    chunkTransfer DEFAULT_RETRY_OPTIONS script404 none =
      ChunkOutcome.sessionFailed (Err.network "HTTP error during chunk upload" 404) :=
  c6_nonretryable_single_attempt DEFAULT_RETRY_OPTIONS script404 ⟨404, none, none⟩
    (by decide) rfl (by decide) (by decide)

/-- RetryConfig where the caller put 401 into retryableStatuses, the input
refuting claim C3. -/
def cfg401 : RetryOptions :=
  { maxRetries := 1, initialDelay := 1000, maxDelay := 30000, backoffMultiplier := 2, retryableStatuses := [401] }

/-- Script answering every fetch with a bare 401 response. -/
def script401 : Nat → Outcome := fun _ => Outcome.resp ⟨401, none, none⟩

/-- Claim C3 counterexample: with retryableStatuses containing 401 and
maxRetries 1, a session creation endpoint that always answers 401 is
fetched twice, not once; the 401 is retried like any other retryable
status before the AuthenticationError is finally thrown. -/
theorem c3_counterexample :
    (fetchWithRetry cfg401 script401 none).attempts = 2 ∧
    (fetchWithRetry cfg401 script401 none).attempts ≠ 1 ∧
    createSession cfg401 script401 none =
      Except.error (some (Err.auth "Authentication failed" 401)) :=
  ⟨by decide, by decide, rfl⟩

/-- Claim C3 amended: a session creation request answered with 401 or 403
fails with an AuthenticationError after exactly one attempt provided the
status is not in retryableStatuses (which holds for the default
configuration); when the caller lists 401 or 403 as retryable, the
response is retried like any other retryable status first. -/
theorem c3_auth_failure_single_attempt (cfg : RetryOptions) (script : Nat → Outcome)
    (r : Response) (hmr : 0 ≤ cfg.maxRetries) (h0 : script 0 = Outcome.resp r)
    (hst : r.status = 401 ∨ r.status = 403)
    (hnr : cfg.retryableStatuses.contains r.status = false) :
    (fetchWithRetry cfg script none).attempts = 1 ∧
    createSession cfg script none =
      Except.error (some (Err.auth "Authentication failed" r.status)) := by
  have hok : r.ok = false := by
    rcases hst with h | h <;> simp [Response.ok, h]
  have hf := fetch_returns_first cfg script r hmr h0 (Or.inr hnr)
  constructor
  · rw [hf]
  · unfold createSession
    rw [hf]
    simp [hok, hst]

/-- Script answering every fetch with a bare 403 response. -/
def script403 : Nat → Outcome := fun _ => Outcome.resp ⟨403, none, none⟩

/-- Claim C3 witness: the amended statement at the default configuration
against a creation endpoint answering 403. -/
theorem c3_witness :
    (fetchWithRetry DEFAULT_RETRY_OPTIONS script403 none).attempts = 1 ∧
    createSession DEFAULT_RETRY_OPTIONS script403 none =
      Except.error (some (Err.auth "Authentication failed" 403)) :=
  c3_auth_failure_single_attempt DEFAULT_RETRY_OPTIONS script403 ⟨403, none, none⟩
    (by decide) rfl (Or.inr rfl) (by decide)

/-- Script answering every fetch with a bare 500 response. -/
def script500 : Nat → Outcome := fun _ => Outcome.resp ⟨500, none, none⟩

/-- Claim C4 counterexample: under the default configuration, with a chunk
endpoint answering 500 and the cancel flag raised during the first backoff
wait (visible from loop iteration 1 on), the full 1000 ms delay is in the
waited list, and the continueUpload step ends with setError on a
NetworkError, which is an error outcome and not the cancelledReset
outcome the claim requires. -/
theorem c4_counterexample :
    (fetchWithRetry DEFAULT_RETRY_OPTIONS script500 (some 1)).delays =
      [delayFor DEFAULT_RETRY_OPTIONS 0] ∧
    delayFor DEFAULT_RETRY_OPTIONS 0 = 1000 ∧
    (fetchWithRetry DEFAULT_RETRY_OPTIONS script500 (some 1)).attempts = 1 ∧
    continueUploadStep DEFAULT_RETRY_OPTIONS script500 false (some 1) false 0 5 10 =
      ChunkStepResult.failed (Err.network "HTTP error during retry" 500) ∧
    ChunkStepResult.failed (Err.network "HTTP error during retry" 500) ≠
      ChunkStepResult.cancelledReset := by
  refine ⟨rfl, ?_, by decide, rfl, by decide⟩
  norm_num [delayFor, DEFAULT_RETRY_OPTIONS, min_def]

/-- Claim C4 amended: a cancel that becomes visible while the backoff delay
after the first retryable failure is being waited out does not interrupt
that wait (the full delay is recorded); at the next loop iteration the
cancellation check stops the loop before any further fetch, fetchWithRetry
throws its last NetworkError, and continueUpload surfaces that error as
the session error, so the session ends in an error state rather than in a
dedicated cancelled state. -/
theorem c4_cancel_during_retry_wait (cfg : RetryOptions) (script : Nat → Outcome)
    (r : Response) (hmr : 1 ≤ cfg.maxRetries) (h0 : script 0 = Outcome.resp r)
    (hok : r.ok = false) (hin : cfg.retryableStatuses.contains r.status = true)
    (offset chunkSize fileSize : Nat) (hofs : offset < fileSize) :
    fetchWithRetry cfg script (some 1) =
      ⟨1, [delayFor cfg 0], 1,
        Except.error (some (Err.network "HTTP error during retry" r.status))⟩ ∧
    continueUploadStep cfg script false (some 1) false offset chunkSize fileSize =
      ChunkStepResult.failed (Err.network "HTTP error during retry" r.status) := by
  have hne : ¬ (r.ok = true ∨ ((0 : Nat) : Int) = cfg.maxRetries) := by
    push_neg
    refine ⟨by simp [hok], by omega⟩
  have hlt : ((0 : Nat) : Int) < cfg.maxRetries := by
    push_cast
    omega
  have hfr : fetchWithRetry cfg script (some 1) =
      ⟨1, [delayFor cfg 0], 1,
        Except.error (some (Err.network "HTTP error during retry" r.status))⟩ := by
    obtain ⟨f, hf⟩ : ∃ f, (cfg.maxRetries + 1).toNat = f + 2 :=
      ⟨(cfg.maxRetries + 1).toNat - 2, by omega⟩
    unfold fetchWithRetry
    rw [hf]
    show fetchLoopGo cfg script (some 1) (f + 1 + 1) 0 none 0 [] 0 = _
    simp only [fetchLoopGo, isCancelled, h0]
    rw [if_neg (by decide), if_neg hne, if_neg (by rw [hin]; decide), if_pos hlt]
    simp [fetchLoopGo, isCancelled]
  refine ⟨hfr, ?_⟩
  unfold continueUploadStep
  rw [if_neg (by decide), if_neg (by decide), if_neg (by omega)]
  unfold chunkTransfer
  rw [hfr]
  simp [caughtToError]

/-- Claim C4 witness: the amended statement at the default configuration,
a chunk endpoint answering 500, offset 0, chunk size 5, file size 10. -/
theorem c4_witness :
    fetchWithRetry DEFAULT_RETRY_OPTIONS script500 (some 1) =
      ⟨1, [delayFor DEFAULT_RETRY_OPTIONS 0], 1,
        Except.error (some (Err.network "HTTP error during retry" 500))⟩ ∧
    continueUploadStep DEFAULT_RETRY_OPTIONS script500 false (some 1) false 0 5 10 =
      ChunkStepResult.failed (Err.network "HTTP error during retry" 500) :=
  c4_cancel_during_retry_wait DEFAULT_RETRY_OPTIONS script500 ⟨500, none, none⟩
    (by decide) rfl (by decide) (by decide) 0 5 10 (by decide)

/-- Claim C5: with maxRetries = N and a chunk endpoint that always answers
with a retryable failing status, exactly N + 1 fetch attempts are issued
and the session then reaches its error state. -/
theorem c5_retry_ceiling (cfg : RetryOptions) (script : Nat → Outcome) (N : Nat)
    (hmr : cfg.maxRetries = (N : Int)) (hs : ∀ k, retryableFail cfg (script k)) :
    (fetchWithRetry cfg script none).attempts = N + 1 ∧
    ∃ e, chunkTransfer cfg script none = ChunkOutcome.sessionFailed e := by
  have hfuel : (cfg.maxRetries + 1).toNat = N + 1 := by omega
  obtain ⟨r, hrN, hok, hatt, hres⟩ :=
    fetchLoopGo_allRetryable cfg script N hmr hs (N + 1) 0 none 0 [] 0 (by omega) (by omega)
  have h1 : (fetchWithRetry cfg script none).attempts = N + 1 := by
    unfold fetchWithRetry
    rw [hfuel]
    simpa using hatt
  have h2 : (fetchWithRetry cfg script none).result = Except.ok r := by
    unfold fetchWithRetry
    rw [hfuel]
    exact hres
  refine ⟨h1, Err.network "HTTP error during chunk upload" r.status, ?_⟩
  unfold chunkTransfer
  rw [h2]
  simp [hok]

/-- RetryConfig with maxRetries 2 and the other fields at their defaults. -/
def cfgTwoRetries : RetryOptions := { DEFAULT_RETRY_OPTIONS with maxRetries := 2 }

/-- Claim C5 witness: maxRetries 2 against a chunk endpoint that always
answers 500, a status in the default retryableStatuses: three attempts. -/
theorem c5_witness :
    (fetchWithRetry cfgTwoRetries script500 none).attempts = 3 ∧
    ∃ e, chunkTransfer cfgTwoRetries script500 none = ChunkOutcome.sessionFailed e :=
  c5_retry_ceiling cfgTwoRetries script500 2 (by decide) (fun _ => ⟨by decide, by decide⟩)

/-- Claim C7: a session creation response that is 2xx but carries no
Location header makes the session fail immediately with the NetworkError
built from the missing location (the protocol violation of the spec), and
zero chunk requests are issued. -/
theorem c7_missing_location (cfg : RetryOptions) (createScript : Nat → Outcome)
    (chunkScript : Nat → Nat → Outcome) (cs fs : Nat) (r : Response)
    (hmr : 0 ≤ cfg.maxRetries) (h0 : createScript 0 = Outcome.resp r)
    (hok : r.ok = true) (hloc : r.location = none) :
    runSession cfg createScript chunkScript cs fs =
      { error := some (Err.network "Upload URL not provided" r.status)
        uploadUrl := none
        uploadResponse := none
        finalOffset := 0
        createFetches := 1
        chunkFetches := 0 } := by
  have hf := fetch_returns_first cfg createScript r hmr h0 (Or.inl hok)
  unfold runSession createSession
  rw [hf]
  simp [hok, hloc, caughtToError]

/-- Creation response with status 201 and no Location header. -/
def respNoLocation : Response := ⟨201, none, none⟩

/-- Script answering every fetch with the 201 response without Location. -/
def scriptNoLocation : Nat → Outcome := fun _ => Outcome.resp respNoLocation

/-- Chunk script answering every chunk fetch with a bare 204 response. -/
def chunkScript204 : Nat → Nat → Outcome := fun _ _ => Outcome.resp ⟨204, none, none⟩

/-- Claim C7 witness: a 201 creation response without Location under the
default configuration fails the session at once with zero chunk fetches. -/
theorem c7_witness :
    runSession DEFAULT_RETRY_OPTIONS scriptNoLocation chunkScript204 BASE_CHUNK_SIZE 100 =
      { error := some (Err.network "Upload URL not provided" 201)
        uploadUrl := none
        uploadResponse := none
        finalOffset := 0
        createFetches := 1
        chunkFetches := 0 } :=
  c7_missing_location DEFAULT_RETRY_OPTIONS scriptNoLocation chunkScript204
    BASE_CHUNK_SIZE 100 respNoLocation (by decide) rfl (by decide) rfl

/-- Claim C8: an in-memory base64 source whose decoded byte size exceeds
the resolved chunk size is rejected at session start with a
ValidationError, and no network request of any kind is issued. -/
theorem c8_oversized_base64_rejected (len padding : Nat) (chunkSizeOpt : Option Nat)
    (cfg : RetryOptions) (createScript : Nat → Outcome)
    (chunkScript : Nat → Nat → Outcome)
    (h : (resolveChunkSize chunkSizeOpt : Rat) < base64FileSize len padding) :
    uploadBase64Run len padding chunkSizeOpt cfg createScript chunkScript =
      { error := some (Err.validation "Base64 file size exceeds chunk size")
        uploadUrl := none
        uploadResponse := none
        finalOffset := 0
        createFetches := 0
        chunkFetches := 0 } := by
  unfold uploadBase64Run uploadBase64Validate
  rw [if_pos h]

/-- Claim C8 witness: a 60 MiB memory source, whose base64 form has length
83886080 with no padding, against the default chunk size of 50 MiB + 1:
62914560 bytes exceed 52428801, so the session is rejected at start. -/
theorem c8_witness :
    ((resolveChunkSize none : Rat) < base64FileSize 83886080 0) ∧
    uploadBase64Run 83886080 0 none DEFAULT_RETRY_OPTIONS scriptNoLocation chunkScript204 =
      { error := some (Err.validation "Base64 file size exceeds chunk size")
        uploadUrl := none
        uploadResponse := none
        finalOffset := 0
        createFetches := 0
        chunkFetches := 0 } := by
  have h : ((resolveChunkSize none : Rat) < base64FileSize 83886080 0) := by
    norm_num [resolveChunkSize, BASE_CHUNK_SIZE, base64FileSize]
  exact ⟨h, c8_oversized_base64_rejected 83886080 0 none DEFAULT_RETRY_OPTIONS
    scriptNoLocation chunkScript204 h⟩

/-- Claim C9: with a positive chunk size, the offset of a session is 0 at
the start, after every successful chunk transfer it never exceeds the
total size, and while it is below the total size each further successful
transfer strictly increases it. -/
theorem c9_offset_monotone (chunkSize fileSize : Nat) (hcs : 0 < chunkSize) (n : Nat) :
    uploadOffsetAfter chunkSize fileSize n ≤ fileSize ∧
    (uploadOffsetAfter chunkSize fileSize n < fileSize →
      uploadOffsetAfter chunkSize fileSize n < uploadOffsetAfter chunkSize fileSize (n + 1)) := by
  induction n with
  | zero =>
    refine ⟨Nat.zero_le _, fun h => ?_⟩
    have hb := nextOffset_bounds 0 chunkSize fileSize hcs (Nat.zero_le _)
    simpa [uploadOffsetAfter] using hb.2 h
  | succ n ih =>
    have hb := nextOffset_bounds (uploadOffsetAfter chunkSize fileSize n)
      chunkSize fileSize hcs ih.1
    have h1 : uploadOffsetAfter chunkSize fileSize (n + 1) ≤ fileSize := by
      simpa [uploadOffsetAfter] using hb.1
    refine ⟨h1, fun h => ?_⟩
    have hb2 := nextOffset_bounds (uploadOffsetAfter chunkSize fileSize (n + 1))
      chunkSize fileSize hcs h1
    simpa [uploadOffsetAfter] using hb2.2 h

/-- Claim C9 witness: chunk size 5, file size 12, after one transfer. -/
theorem c9_witness :
    uploadOffsetAfter 5 12 1 ≤ 12 ∧
    (uploadOffsetAfter 5 12 1 < 12 →
      uploadOffsetAfter 5 12 1 < uploadOffsetAfter 5 12 2) :=
  c9_offset_monotone 5 12 (by decide) 1

/-- Claim C10: resetState clears progress, error, uploadResponse,
retryCount, the upload URL, the pause and cancel flags, the offset and the
file info, while lastResponseHeadersRef, chunkSizeRef and retryOptionsRef
keep their previous values; consequently a fresh session over a zero byte
file goes straight to finalization without sending a chunk, finalization
reads the headers captured by the previous session, and when no headers
were ever captured the reported identifier is the empty string, not null. -/
theorem c10_reset_state_frame (s : HookState) :
    ((resetState s).lastResponseHeaders = s.lastResponseHeaders ∧
     (resetState s).chunkSize = s.chunkSize ∧
     (resetState s).retryOptions = s.retryOptions) ∧
    ((resetState s).progress = 0 ∧
     (resetState s).error = none ∧
     (resetState s).uploadResponse = none ∧
     (resetState s).retryCount = 0 ∧
     (resetState s).uploadUrl = none ∧
     (resetState s).paused = false ∧
     (resetState s).cancelled = false ∧
     (resetState s).uploadOffset = 0 ∧
     (resetState s).fileInfo = none) ∧
    ((∀ script c, continueUploadStep (resetState s).retryOptions script false none false
        (resetState s).uploadOffset c 0 = ChunkStepResult.finalize) ∧
     finalizeUpload (resetState s).lastResponseHeaders = finalizeUpload s.lastResponseHeaders ∧
     (s.lastResponseHeaders = none →
       finalizeUpload (resetState s).lastResponseHeaders = some "")) := by
  refine ⟨⟨rfl, rfl, rfl⟩, ⟨rfl, rfl, rfl, rfl, rfl, rfl, rfl, rfl, rfl⟩,
    fun _ _ => rfl, rfl, fun h => ?_⟩
  show finalizeUpload s.lastResponseHeaders = some ""
  rw [h]
  rfl

/-- Hook state left over by a previous session that never captured any
response headers. -/
def hookState0 : HookState :=
  { progress := 55
    loading := true
    error := some (Err.generic "previous session error")
    uploadResponse := some "previous"
    retryCount := 2
    uploadUrl := some "https://upload.example/1"
    paused := true
    cancelled := true
    uploadOffset := 7
    fileInfo := some ⟨some "file://a.txt", none, 7, "text/plain", "a.txt", false⟩
    lastResponseHeaders := none
    chunkSize := 5
    retryOptions := DEFAULT_RETRY_OPTIONS }

/-- Claim C10 witness: after resetState on a hook that never captured
headers, finalization reports the empty string identifier. -/
theorem c10_witness :
    hookState0.lastResponseHeaders = none ∧
    finalizeUpload (resetState hookState0).lastResponseHeaders = some "" :=
  ⟨rfl, (c10_reset_state_frame hookState0).2.2.2.2 rfl⟩
